import Mathlib

/-!
Verification of the vehicle spawn-resolution core (`src/vehicle_factory.h`).

The header file declares the data model (VehicleGroup, VehicleFacings,
VehicleLocation, VehiclePlacement, VehicleFunction and its two variants,
VehicleSpawn) and gives inline bodies for several operations.  The
weighted-list container, the random source `rng`, the `jmapgen_int`
value-or-range type and the out-of-line method bodies live in files that are
not part of this source tree; those are modelled from the specification and
are marked as such in their doc comments.  Randomness is made explicit: every
randomized operation takes a seed and draws through a deterministic model of
the opaque uniform source.
-/

set_option autoImplicit false

/-- Modelled from the spec: random-number generation is an external
collaborator "used as an opaque uniform source".  `rng seed lo hi` is a
deterministic model of one uniform draw from the inclusive range `[lo, hi]`;
when `hi < lo` the contract is vacuous and the draw degenerates to `lo`. -/
def rng (seed : Nat) (lo hi : Int) : Int :=
  if hi < lo then lo else lo + ((seed : Int) % (hi - lo + 1))

/-- Modelled from the spec: a uniform draw from `[0, total)` for the
real-weighted list, again deterministic in the seed. -/
def rngRat (seed : Nat) (total : Rat) : Rat :=
  total * ((seed % 1000003 : Nat) : Rat) / 1000003

/-- A deterministic seed-splitting helper used to thread the shared random
source through the successive draws an operation makes. -/
def mixSeed (seed i : Nat) : Nat :=
  seed * 2654435761 + i + 1

/-- Modelled from the spec: `weighted_list.h` is not in this source tree.
The integer-weight variant of the generic weighted-choice container: an
ordered sequence of (value, weight) pairs built by repeated `add`. -/
structure weighted_int_list (α : Type) where
  entries : List (α × Int)

/-- Sum of weights of the stored entries. -/
def weighted_int_list.total_weight {α : Type} (l : weighted_int_list α) : Int :=
  (l.entries.map Prod.snd).sum

/-- Modelled from the spec: `add(value, weight)` appends; it "ignores or
rejects non-positive weight per policy", so a non-positive weight leaves the
list unchanged. -/
def weighted_int_list.add {α : Type} (l : weighted_int_list α) (obj : α) (weight : Int) :
    weighted_int_list α :=
  if 0 < weight then { entries := l.entries ++ [(obj, weight)] } else l

/-- The linear scan of the weighted pick: find the first entry whose
cumulative weight exceeds the draw `u`. -/
def pickScan {α : Type} : List (α × Int) → Int → Option α
  | [], _ => none
  | (v, w) :: rest, u => if u < w then some v else pickScan rest (u - w)

/-- Modelled from the spec: `pick()` draws a uniform value in
`[0, total_weight)` and scans for the first entry whose cumulative weight
exceeds the draw; picking from an empty or zero-total-weight list is an error
condition, modelled as `none`. -/
def weighted_int_list.pick {α : Type} (l : weighted_int_list α) (seed : Nat) : Option α :=
  if l.total_weight ≤ 0 then none
  else pickScan l.entries (rng seed 0 (l.total_weight - 1))

/-- Modelled from the spec: the real-valued-weight variant of the weighted
list (real weights modelled by rationals). -/
structure weighted_float_list (α : Type) where
  entries : List (α × Rat)

/-- Sum of weights of the stored entries. -/
def weighted_float_list.total_weight {α : Type} (l : weighted_float_list α) : Rat :=
  (l.entries.map Prod.snd).sum

/-- Modelled from the spec: append, ignoring non-positive weight. -/
def weighted_float_list.add {α : Type} (l : weighted_float_list α) (obj : α) (weight : Rat) :
    weighted_float_list α :=
  if 0 < weight then { entries := l.entries ++ [(obj, weight)] } else l

/-- The linear scan for the real-weighted pick. -/
def pickScanRat {α : Type} : List (α × Rat) → Rat → Option α
  | [], _ => none
  | (v, w) :: rest, u => if u < w then some v else pickScanRat rest (u - w)

/-- Modelled from the spec: real-weighted `pick()`; empty or zero-total lists
fail deterministically (`none`). -/
def weighted_float_list.pick {α : Type} (l : weighted_float_list α) (seed : Nat) : Option α :=
  if l.total_weight ≤ 0 then none
  else pickScanRat l.entries (rngRat seed l.total_weight)

/-- Vehicle prototype identifiers; `string_id` interning is an external
collaborator, so ids are plain strings. -/
abbrev vproto_id := String

/-- Interned name of a vehicle group. -/
abbrev vgroup_id := String

/-- `VehicleGroup`: a named weighted set of vehicle prototype ids
(`vehicle_factory.h`, lines 14-30). -/
structure VehicleGroup where
  vehicles : weighted_int_list vproto_id

/-- `VehicleGroup::add_vehicle` delegates to the weighted list's `add`
(`vehicle_factory.h`, lines 18-20). -/
def VehicleGroup.add_vehicle (g : VehicleGroup) (type : vproto_id) (probability : Int) :
    VehicleGroup :=
  { vehicles := g.vehicles.add type probability }

/-- `VehicleGroup::pick` returns `*(vehicles.pick())` (`vehicle_factory.h`,
lines 22-24); dereferencing the failed pick is the failure case, kept as
`none`. -/
def VehicleGroup.pick (g : VehicleGroup) (seed : Nat) : Option vproto_id :=
  g.vehicles.pick seed

/-- `VehicleFacings`: the ordered facing values (`vehicle_factory.h`,
lines 38-46). -/
structure VehicleFacings where
  values : List Int

/-- The index `rng(0, values.size()-1)` computed inside
`VehicleFacings::pick` (`vehicle_factory.h`, line 42); the size arithmetic is
carried out over `Int`, so an empty vector yields the degenerate range
`[0, -1]`. -/
def VehicleFacings.pick_index (f : VehicleFacings) (seed : Nat) : Int :=
  rng seed 0 ((f.values.length : Int) - 1)

/-- `VehicleFacings::pick` returns `values[rng(0, values.size()-1)]`
(`vehicle_factory.h`, lines 41-43); an out-of-bounds index is the undefined
access, modelled as `none`. -/
def VehicleFacings.pick (f : VehicleFacings) (seed : Nat) : Option Int :=
  let idx := f.pick_index seed
  if h : 0 ≤ idx ∧ idx.toNat < f.values.length then
    some (f.values.get ⟨idx.toNat, h.2⟩)
  else
    none

/-- Modelled from the spec: `jmapgen_int` (from the external `mapgen.h`) is
"a value or inclusive range resolved at pick time to a concrete coordinate";
a fixed value is the degenerate range with `val = valmax`. -/
structure jmapgen_int where
  val : Int
  valmax : Int

/-- Modelled from the spec: resolving a `jmapgen_int` draws uniformly from
the inclusive range `[val, valmax]`. -/
def jmapgen_int.get (j : jmapgen_int) (seed : Nat) : Int :=
  rng seed j.val j.valmax

/-- A map coordinate pair (the external `point` type). -/
structure point where
  x : Int
  y : Int
deriving DecidableEq, Repr

/-- `VehicleLocation`: the location and facing data needed to place a
vehicle (`vehicle_factory.h`, lines 48-63). -/
structure VehicleLocation where
  x : jmapgen_int
  y : jmapgen_int
  facings : VehicleFacings

/-- `VehicleLocation::pick_facing` delegates to `facings.pick()`
(`vehicle_factory.h`, lines 52-54). -/
def VehicleLocation.pick_facing (l : VehicleLocation) (seed : Nat) : Option Int :=
  l.facings.pick seed

/-- `VehicleLocation::pick_point` returns `point(x.get(), y.get())`
(`vehicle_factory.h`, lines 56-58); the two range resolutions are
independent draws. -/
def VehicleLocation.pick_point (l : VehicleLocation) (sx sy : Nat) : point :=
  point.mk (l.x.get sx) (l.y.get sy)

/-- `VehiclePlacement`: a list of candidate vehicle locations
(`vehicle_factory.h`, lines 68-78). -/
structure VehiclePlacement where
  locations : List VehicleLocation

/-- `VehiclePlacement::add` appends a location (`vehicle_factory.h`,
lines 69-71). -/
def VehiclePlacement.add (p : VehiclePlacement) (x y : jmapgen_int) (facings : VehicleFacings) :
    VehiclePlacement :=
  { locations := p.locations ++ [VehicleLocation.mk x y facings] }

/-- Modelled from the spec: `VehiclePlacement::pick` (its body is in the
out-of-line implementation file, not in this tree) is a plain uniform pick
among the stored locations; picking from an empty catalog is an error,
modelled as `none`. -/
def VehiclePlacement.pick (p : VehiclePlacement) (seed : Nat) : Option VehicleLocation :=
  let idx := rng seed 0 ((p.locations.length : Int) - 1)
  if h : 0 ≤ idx ∧ idx.toNat < p.locations.length then
    some (p.locations.get ⟨idx.toNat, h.2⟩)
  else
    none

/-- One entity placed on the map: prototype, position, facing, fuel and
status, as handed to the map collaborator. -/
structure placed_vehicle where
  proto : vproto_id
  pos : point
  facing : Int
  fuel : Int
  status : Int
deriving DecidableEq, Repr

/-- Modelled from the spec: the spatial map is an external collaborator whose
internals are not specified; only its entity set matters here. -/
structure game_map where
  vehicles : List placed_vehicle
deriving DecidableEq, Repr

/-- Modelled from the spec: the map collaborator's
`place_vehicle(map, type, x, y, facing, fuel, status)` contract, treated as
a black box that records the placement in the map's entity set. -/
def game_map.add_vehicle (m : game_map) (proto : vproto_id) (pos : point)
    (facing fuel status : Int) : game_map :=
  { vehicles := m.vehicles ++ [placed_vehicle.mk proto pos facing fuel status] }

/-- The signature of a compiled spawn routine
(`typedef void (*vehicle_gen_pointer)(map&, const std::string&)`,
`vehicle_factory.h`, line 94); the routine's effect is its transformation of
the map. -/
def vehicle_gen_pointer := game_map → String → game_map

/-- `VehicleFunction_builtin`: wraps a fixed native routine reference
(`vehicle_factory.h`, lines 96-107). -/
structure VehicleFunction_builtin where
  func : vehicle_gen_pointer

/-- `VehicleFunction_builtin::apply` invokes `func(m, terrainid)`
(`vehicle_factory.h`, lines 101-103). -/
def VehicleFunction_builtin.apply (f : VehicleFunction_builtin) (m : game_map)
    (terrainid : String) : game_map :=
  f.func m terrainid

/-- The private fields of `VehicleFunction_json` (`vehicle_factory.h`,
lines 116-123): group reference, count, fuel, status, and either a named
placement reference or an owned inline location. -/
structure VehicleFunction_json where
  vehicle : vgroup_id
  number : jmapgen_int
  fuel : Int
  status : Int
  placement : Option String
  location : Option VehicleLocation

/-- The shape of a declarative spawn-function record as read from data:
the respective fields, with the inline location and the placement-catalog
reference each optional. -/
structure VehicleFunctionRecord where
  vehicle : vgroup_id
  number : jmapgen_int
  fuel : Int
  status : Int
  placement : Option String
  location : Option VehicleLocation

/-- Modelled from the spec: the `VehicleFunction_json` constructor (its body
is in the out-of-line implementation file) reads "an optional inline location
OR a named placement-catalog reference (exactly one of the two must be
present — both or neither is a load-time validation error)"; the validation
error is `none`. -/
def VehicleFunction_json.construct (r : VehicleFunctionRecord) : Option VehicleFunction_json :=
  match r.placement, r.location with
  | some p, none =>
      some (VehicleFunction_json.mk r.vehicle r.number r.fuel r.status (some p) none)
  | none, some l =>
      some (VehicleFunction_json.mk r.vehicle r.number r.fuel r.status none (some l))
  | _, _ => none

/-- The process-wide name→group map `vgroups` (`vehicle_factory.h`,
line 33), modelled as an association list. -/
abbrev VGroupMap := List (vgroup_id × VehicleGroup)

/-- The process-wide name→placement map, modelled as an association list. -/
abbrev VPlacementMap := List (String × VehiclePlacement)

/-- Association-list lookup used for the process-wide name→entity maps. -/
def lookupName {α : Type} : List (String × α) → String → Option α
  | [], _ => none
  | (k, v) :: rest, n => if k = n then some v else lookupName rest n

/-- `VehicleFunction`: the polymorphic spawn-function interface
(`vehicle_factory.h`, lines 88-92), as a closed variant over its two
subclasses. -/
inductive VehicleFunction where
  | builtin (f : VehicleFunction_builtin)
  | json (jf : VehicleFunction_json)

/-- Modelled from the spec: the declarative `apply` "resolves a placement
point (from inline location or by picking from the named catalog)"; an
unresolvable catalog name or an empty catalog fails loudly (`none`). -/
def VehicleFunction_json.resolve_location (jf : VehicleFunction_json)
    (placements : VPlacementMap) (seed : Nat) : Option VehicleLocation :=
  match jf.location with
  | some loc => some loc
  | none =>
    match jf.placement with
    | some pname =>
      match lookupName placements pname with
      | some pl => pl.pick seed
      | none => none
    | none => none

/-- Modelled from the spec: one unit of the declarative placement — resolve
the entity group to a prototype, resolve a location, pick its point and
facing, and request one placement from the map collaborator; each draw uses
its own split of the seed.  Unresolvable references fail loudly (`none`). -/
def VehicleFunction_json.place_one (jf : VehicleFunction_json) (groups : VGroupMap)
    (placements : VPlacementMap) (seed : Nat) (m : game_map) : Option game_map :=
  match lookupName groups jf.vehicle with
  | none => none
  | some g =>
    match g.pick (mixSeed seed 0) with
    | none => none
    | some proto =>
      match jf.resolve_location placements (mixSeed seed 1) with
      | none => none
      | some loc =>
        match loc.pick_facing (mixSeed seed 2) with
        | none => none
        | some facing =>
          some (m.add_vehicle proto (loc.pick_point (mixSeed seed 3) (mixSeed seed 4))
            facing jf.fuel jf.status)

/-- Modelled from the spec: "for each unit in count", place one entity; each
of the count placements independently re-picks its own draws. -/
def VehicleFunction_json.place_loop (jf : VehicleFunction_json) (groups : VGroupMap)
    (placements : VPlacementMap) (seed : Nat) : Nat → game_map → Option game_map
  | 0, m => some m
  | Nat.succ k, m =>
    match jf.place_one groups placements (mixSeed seed k) m with
    | none => none
    | some m2 => jf.place_loop groups placements seed k m2

/-- Modelled from the spec: `VehicleFunction_json::apply` (out-of-line body)
"picks a concrete integer count from the count range" and performs that many
placements. -/
def VehicleFunction_json.apply (jf : VehicleFunction_json) (groups : VGroupMap)
    (placements : VPlacementMap) (seed : Nat) (m : game_map) (_terrain_name : String) :
    Option game_map :=
  jf.place_loop groups placements (mixSeed seed 5) (jf.number.get seed).toNat m

/-- The virtual dispatch of `VehicleFunction::apply`: the builtin variant
invokes its native routine, the declarative variant runs the data-driven
placement. -/
def VehicleFunction.apply : VehicleFunction → VGroupMap → VPlacementMap → Nat → game_map →
    String → Option game_map
  | VehicleFunction.builtin f, _, _, _, m, t => some (f.apply m t)
  | VehicleFunction.json jf, g, p, s, m, t => jf.apply g p s m t

/-- `VehicleSpawn`: a weighted list of spawn functions under one spawn id
(`vehicle_factory.h`, lines 133-171). -/
structure VehicleSpawn where
  types : weighted_float_list VehicleFunction

/-- `VehicleSpawn::add` delegates to the real-weighted list's `add`
(`vehicle_factory.h`, lines 135-137). -/
def VehicleSpawn.add (s : VehicleSpawn) (weight : Rat) (func : VehicleFunction) : VehicleSpawn :=
  { types := s.types.add func weight }

/-- `VehicleSpawn::pick` returns `types.pick()->get()` (`vehicle_factory.h`,
lines 139-141); a failed weighted pick is the failure case, kept as `none`. -/
def VehicleSpawn.pick (s : VehicleSpawn) (seed : Nat) : Option VehicleFunction :=
  s.types.pick seed

/-- Modelled from the spec: the instance `VehicleSpawn::apply` (out-of-line
body) "picks then invokes". -/
def VehicleSpawn.apply (s : VehicleSpawn) (groups : VGroupMap) (placements : VPlacementMap)
    (seed : Nat) (m : game_map) (terrain_name : String) : Option game_map :=
  match s.pick seed with
  | none => none
  | some f => f.apply groups placements (mixSeed seed 6) m terrain_name

/-- The process-wide name→spawn registry, modelled as an association list. -/
abbrev VSpawnMap := List (String × VehicleSpawn)

/-- Modelled from the spec: the static `VehicleSpawn::apply(id, m,
terrain_name)` (out-of-line body) "resolves spawn_id in the process-wide
registry map" and delegates to the instance method; an unknown id "always
fails/errors and never silently returns", modelled as `none`. -/
def VehicleSpawn.apply_static (id : String) (spawns : VSpawnMap) (groups : VGroupMap)
    (placements : VPlacementMap) (seed : Nat) (m : game_map) (terrain_name : String) :
    Option game_map :=
  match lookupName spawns id with
  | none => none
  | some s => s.apply groups placements seed m terrain_name

/-- The whole runtime state: the three process-wide name→entity maps, the
shared random source, and the external map. -/
structure GameState where
  vgroups : VGroupMap
  vplacements : VPlacementMap
  vspawns : VSpawnMap
  seed : Nat
  m : game_map

/-- Advancing the shared random source after an operation consumed draws. -/
def stepSeed (st : GameState) : GameState :=
  { st with seed := mixSeed st.seed 0 }

/-- `VehicleGroup::pick` run against the runtime state: look the group up in
the process-wide map and pick, consuming randomness. -/
def GameState.group_pick (st : GameState) (id : vgroup_id) : Option vproto_id × GameState :=
  match lookupName st.vgroups id with
  | none => (none, stepSeed st)
  | some g => (g.pick st.seed, stepSeed st)

/-- `VehicleFacings::pick` run against the runtime state. -/
def GameState.facings_pick (st : GameState) (f : VehicleFacings) : Option Int × GameState :=
  (f.pick st.seed, stepSeed st)

/-- `VehicleLocation::pick_point` run against the runtime state. -/
def GameState.location_pick_point (st : GameState) (l : VehicleLocation) : point × GameState :=
  (l.pick_point st.seed (mixSeed st.seed 1), stepSeed st)

/-- `VehiclePlacement::pick` run against the runtime state. -/
def GameState.placement_pick (st : GameState) (id : String) :
    Option VehicleLocation × GameState :=
  match lookupName st.vplacements id with
  | none => (none, stepSeed st)
  | some p => (p.pick st.seed, stepSeed st)

/-- `VehicleSpawn::pick` run against the runtime state. -/
def GameState.spawn_pick (st : GameState) (id : String) :
    Option VehicleFunction × GameState :=
  match lookupName st.vspawns id with
  | none => (none, stepSeed st)
  | some s => (s.pick st.seed, stepSeed st)

/-- The static `VehicleSpawn::apply` run against the runtime state: the only
components it may write are the shared random source and the external map. -/
def GameState.spawn_apply (st : GameState) (id : String) (terrain_name : String) : GameState :=
  match VehicleSpawn.apply_static id st.vspawns st.vgroups st.vplacements st.seed st.m
      terrain_name with
  | none => stepSeed st
  | some m2 => { stepSeed st with m := m2 }

theorem rng_bounds (seed : Nat) (lo hi : Int) (h : lo ≤ hi) :
    lo ≤ rng seed lo hi ∧ rng seed lo hi ≤ hi := by
  unfold rng
  rw [if_neg (not_lt.mpr h)]
  have h1 : 0 ≤ (seed : Int) % (hi - lo + 1) := Int.emod_nonneg _ (by omega)
  have h2 : (seed : Int) % (hi - lo + 1) < hi - lo + 1 := Int.emod_lt_of_pos _ (by omega)
  omega

theorem weighted_int_list_pick_none {α : Type} (l : weighted_int_list α) (seed : Nat)
    (h : l.entries = [] ∨ l.total_weight = 0) : l.pick seed = none := by
  have hle : l.total_weight ≤ 0 := by
    cases h with
    | inl he => simp [weighted_int_list.total_weight, he]
    | inr ht => exact le_of_eq ht
  simp [weighted_int_list.pick, hle]

theorem weighted_float_list_pick_none {α : Type} (l : weighted_float_list α) (seed : Nat)
    (h : l.entries = [] ∨ l.total_weight = 0) : l.pick seed = none := by
  have hle : l.total_weight ≤ 0 := by
    cases h with
    | inl he => simp [weighted_float_list.total_weight, he]
    | inr ht => exact le_of_eq ht
  simp [weighted_float_list.pick, hle]

/-- C1: on a weighted list that is empty or has total weight 0, `pick()`
fails deterministically; in particular `VehicleGroup::pick` and
`VehicleSpawn::pick` never yield a result there. -/
theorem group_and_spawn_pick_fail_on_empty_or_zero (g : VehicleGroup) (s : VehicleSpawn)
    (seed : Nat)
    (hg : g.vehicles.entries = [] ∨ g.vehicles.total_weight = 0)
    (hs : s.types.entries = [] ∨ s.types.total_weight = 0) :
    g.pick seed = none ∧ s.pick seed = none :=
  ⟨weighted_int_list_pick_none g.vehicles seed hg,
   weighted_float_list_pick_none s.types seed hs⟩

theorem group_and_spawn_pick_fail_on_empty_or_zero_witness :
    (VehicleGroup.mk (weighted_int_list.mk [])).pick 0 = none ∧
      (VehicleSpawn.mk (weighted_float_list.mk [])).pick 0 = none :=
  group_and_spawn_pick_fail_on_empty_or_zero
    (VehicleGroup.mk (weighted_int_list.mk []))
    (VehicleSpawn.mk (weighted_float_list.mk [])) 0 (Or.inl rfl) (Or.inl rfl)

/-- C3: resolving an unknown spawn id via the static `VehicleSpawn::apply`
path fails (returns the error value) and never silently returns a map. -/
theorem apply_static_unknown_id_fails (id : String) (spawns : VSpawnMap) (groups : VGroupMap)
    (placements : VPlacementMap) (seed : Nat) (m : game_map) (t : String)
    (h : lookupName spawns id = none) :
    VehicleSpawn.apply_static id spawns groups placements seed m t = none := by
  simp [VehicleSpawn.apply_static, h]

theorem apply_static_unknown_id_fails_witness :
    VehicleSpawn.apply_static "no_such_spawn" [] [] [] 0 (game_map.mk []) "road" = none :=
  apply_static_unknown_id_fails "no_such_spawn" [] [] [] 0 (game_map.mk []) "road" rfl

/-- C4: every value returned by `VehicleFacings::pick` is an element of the
stored `values` sequence; it never fabricates a value absent from the
original facing set. -/
theorem facings_pick_mem (f : VehicleFacings) (seed : Nat) (v : Int)
    (h : f.pick seed = some v) : v ∈ f.values := by
  simp only [VehicleFacings.pick] at h
  split at h
  · exact Option.some_injective _ h ▸ f.values.get_mem _ _
  · exact absurd h (by simp)

theorem facings_pick_mem_witness :
    (90 : Int) ∈ (VehicleFacings.mk [90, 180]).values :=
  facings_pick_mem (VehicleFacings.mk [90, 180]) 0 90 (by decide)

/-- C5: `VehicleLocation::pick_point` returns a point whose x coordinate
lies within the declared x-range and whose y coordinate lies within the
declared y-range (a fixed value being the degenerate range). -/
theorem pick_point_in_ranges (l : VehicleLocation) (sx sy : Nat)
    (hx : l.x.val ≤ l.x.valmax) (hy : l.y.val ≤ l.y.valmax) :
    l.x.val ≤ (l.pick_point sx sy).x ∧ (l.pick_point sx sy).x ≤ l.x.valmax ∧
      l.y.val ≤ (l.pick_point sx sy).y ∧ (l.pick_point sx sy).y ≤ l.y.valmax := by
  have hbx := rng_bounds sx l.x.val l.x.valmax hx
  have hby := rng_bounds sy l.y.val l.y.valmax hy
  simp only [VehicleLocation.pick_point, jmapgen_int.get]
  exact ⟨hbx.1, hbx.2, hby.1, hby.2⟩

theorem pick_point_in_ranges_witness :
    (3 : Int) ≤ ((VehicleLocation.mk (jmapgen_int.mk 3 5) (jmapgen_int.mk 7 7)
        (VehicleFacings.mk [0])).pick_point 1 2).x ∧
      ((VehicleLocation.mk (jmapgen_int.mk 3 5) (jmapgen_int.mk 7 7)
        (VehicleFacings.mk [0])).pick_point 1 2).x ≤ 5 ∧
      (7 : Int) ≤ ((VehicleLocation.mk (jmapgen_int.mk 3 5) (jmapgen_int.mk 7 7)
        (VehicleFacings.mk [0])).pick_point 1 2).y ∧
      ((VehicleLocation.mk (jmapgen_int.mk 3 5) (jmapgen_int.mk 7 7)
        (VehicleFacings.mk [0])).pick_point 1 2).y ≤ 7 :=
  pick_point_in_ranges
    (VehicleLocation.mk (jmapgen_int.mk 3 5) (jmapgen_int.mk 7 7) (VehicleFacings.mk [0]))
    1 2 (by decide) (by decide)

/-- C6: a builtin-variant spawn function's `apply` invokes exactly the
native routine bound at construction, passing the map and terrain name
through unchanged, and performs no other effect. -/
theorem builtin_apply_invokes_bound_routine (f : VehicleFunction_builtin)
    (groups : VGroupMap) (placements : VPlacementMap) (seed : Nat) (m : game_map)
    (t : String) :
    f.apply m t = f.func m t ∧
      VehicleFunction.apply (VehicleFunction.builtin f) groups placements seed m t =
        some (f.func m t) :=
  ⟨rfl, rfl⟩

/-- C7: constructing a declarative spawn function from a record succeeds
exactly when exactly one of the inline location and the named
placement-catalog reference is present; both or neither is a load-time
validation error. -/
theorem construct_requires_exactly_one_of_location_placement (r : VehicleFunctionRecord) :
    (VehicleFunction_json.construct r).isSome ↔
      ((r.placement.isSome ∧ r.location.isNone) ∨
        (r.placement.isNone ∧ r.location.isSome)) := by
  cases hp : r.placement <;> cases hl : r.location <;>
    simp [VehicleFunction_json.construct, hp, hl]

/-- C8: an entry added with non-positive weight is ignored by `add`, hence
never selectable; this holds for `VehicleGroup::add_vehicle` and
`VehicleSpawn::add` alike. -/
theorem add_nonpositive_weight_ignored (g : VehicleGroup) (type : vproto_id) (w : Int)
    (s : VehicleSpawn) (f : VehicleFunction) (wq : Rat)
    (hw : w ≤ 0) (hwq : wq ≤ 0) :
    g.add_vehicle type w = g ∧ s.add wq f = s := by
  constructor
  · simp [VehicleGroup.add_vehicle, weighted_int_list.add, not_lt.mpr hw]
  · simp [VehicleSpawn.add, weighted_float_list.add, not_lt.mpr hwq]

theorem add_nonpositive_weight_ignored_witness :
    (VehicleGroup.mk (weighted_int_list.mk [])).add_vehicle "car" 0 =
        VehicleGroup.mk (weighted_int_list.mk []) ∧
      (VehicleSpawn.mk (weighted_float_list.mk [])).add 0
          (VehicleFunction.builtin (VehicleFunction_builtin.mk (fun m _ => m))) =
        VehicleSpawn.mk (weighted_float_list.mk []) :=
  add_nonpositive_weight_ignored (VehicleGroup.mk (weighted_int_list.mk [])) "car" 0
    (VehicleSpawn.mk (weighted_float_list.mk []))
    (VehicleFunction.builtin (VehicleFunction_builtin.mk (fun m _ => m))) 0
    (by decide) (by decide)

/-- C10: for a non-empty `values` vector, the index `rng(0, values.size()-1)`
computed by `VehicleFacings::pick` lies in bounds (0 ≤ i ≤ size-1), so the
out-of-bounds branch is unreachable and the pick yields a value; non-empty
`values` is thus a safety precondition of `pick()`. -/
theorem facings_pick_index_in_bounds (f : VehicleFacings) (seed : Nat)
    (h : f.values ≠ []) :
    0 ≤ f.pick_index seed ∧ f.pick_index seed ≤ (f.values.length : Int) - 1 ∧
      (f.pick_index seed).toNat < f.values.length ∧ (f.pick seed).isSome := by
  have hlen : 0 < f.values.length := List.length_pos.mpr h
  have hb := rng_bounds seed 0 ((f.values.length : Int) - 1) (by omega)
  have hidx : f.pick_index seed = rng seed 0 ((f.values.length : Int) - 1) := rfl
  have h0 : 0 ≤ f.pick_index seed := hidx ▸ hb.1
  have h1 : f.pick_index seed ≤ (f.values.length : Int) - 1 := hidx ▸ hb.2
  have h2 : (f.pick_index seed).toNat < f.values.length := by omega
  refine ⟨h0, h1, h2, ?_⟩
  simp [VehicleFacings.pick, h0, h2]

theorem facings_pick_index_in_bounds_witness :
    0 ≤ (VehicleFacings.mk [0, 90, 180, 270]).pick_index 5 ∧
      (VehicleFacings.mk [0, 90, 180, 270]).pick_index 5 ≤
        (((VehicleFacings.mk [0, 90, 180, 270]).values.length : Int) - 1) ∧
      ((VehicleFacings.mk [0, 90, 180, 270]).pick_index 5).toNat <
        (VehicleFacings.mk [0, 90, 180, 270]).values.length ∧
      ((VehicleFacings.mk [0, 90, 180, 270]).pick 5).isSome :=
  facings_pick_index_in_bounds (VehicleFacings.mk [0, 90, 180, 270]) 5 (by decide)

theorem place_one_length (jf : VehicleFunction_json) (groups : VGroupMap)
    (placements : VPlacementMap) (seed : Nat) (m m2 : game_map)
    (h : jf.place_one groups placements seed m = some m2) :
    m2.vehicles.length = m.vehicles.length + 1 := by
  unfold VehicleFunction_json.place_one at h
  repeat' split at h
  all_goals try exact Option.noConfusion h
  rw [Option.some.injEq] at h
  subst h
  simp [game_map.add_vehicle]

theorem place_loop_length (jf : VehicleFunction_json) (groups : VGroupMap)
    (placements : VPlacementMap) (seed : Nat) :
    ∀ (n : Nat) (m m2 : game_map),
      jf.place_loop groups placements seed n m = some m2 →
      m2.vehicles.length = m.vehicles.length + n := by
  intro n
  induction n with
  | zero =>
    intro m m2 h
    simp only [VehicleFunction_json.place_loop, Option.some.injEq] at h
    subst h
    simp
  | succ k ih =>
    intro m m2 h
    unfold VehicleFunction_json.place_loop at h
    split at h
    · exact absurd h (by simp)
    · rename_i m1 hm1
      have h1 := place_one_length jf groups placements (mixSeed seed k) m m1 hm1
      have h2 := ih m1 m2 h
      omega

/-- C2: a declarative spawn function whose count is the inclusive range
[a, b] places, on every successful invocation of `apply`, at least a and at
most b vehicles on the map. -/
theorem json_apply_places_count_in_range (jf : VehicleFunction_json) (groups : VGroupMap)
    (placements : VPlacementMap) (seed : Nat) (m m2 : game_map) (t : String) (a b : Int)
    (hn : jf.number = jmapgen_int.mk a b) (ha : 0 ≤ a) (hab : a ≤ b)
    (h : jf.apply groups placements seed m t = some m2) :
    a ≤ (m2.vehicles.length : Int) - (m.vehicles.length : Int) ∧
      (m2.vehicles.length : Int) - (m.vehicles.length : Int) ≤ b := by
  unfold VehicleFunction_json.apply at h
  have hlen := place_loop_length jf groups placements (mixSeed seed 5)
    ((jf.number.get seed).toNat) m m2 h
  have hget : jf.number.get seed = rng seed a b := by rw [hn]; rfl
  have hb := rng_bounds seed a b hab
  rw [hget] at hlen
  omega

theorem json_apply_places_count_in_range_witness :
    (2 : Int) ≤
        (((game_map.mk [placed_vehicle.mk "car" (point.mk 0 0) 90 100 0,
          placed_vehicle.mk "car" (point.mk 0 0) 90 100 0]).vehicles.length : Int) -
          ((game_map.mk []).vehicles.length : Int)) ∧
      (((game_map.mk [placed_vehicle.mk "car" (point.mk 0 0) 90 100 0,
          placed_vehicle.mk "car" (point.mk 0 0) 90 100 0]).vehicles.length : Int) -
          ((game_map.mk []).vehicles.length : Int)) ≤ 4 :=
  json_apply_places_count_in_range
    (VehicleFunction_json.mk "g" (jmapgen_int.mk 2 4) 100 0 none
      (some (VehicleLocation.mk (jmapgen_int.mk 0 0) (jmapgen_int.mk 0 0)
        (VehicleFacings.mk [90]))))
    [("g", VehicleGroup.mk (weighted_int_list.mk [("car", 1)]))] [] 0
    (game_map.mk [])
    (game_map.mk [placed_vehicle.mk "car" (point.mk 0 0) 90 100 0,
      placed_vehicle.mk "car" (point.mk 0 0) 90 100 0])
    "road" 2 4 rfl (by decide) (by decide) (by decide)

/-- C9: after load, the runtime operations (group pick, facings pick,
location point pick, placement pick, spawn pick, static spawn apply) leave
the process-wide name→entity maps — groups, placement catalogs and the spawn
registry — unchanged; only the random source and the external map advance. -/
theorem runtime_ops_preserve_registries (st : GameState) (gid : vgroup_id)
    (f : VehicleFacings) (l : VehicleLocation) (pid sid tname : String) :
    ((st.group_pick gid).2.vgroups = st.vgroups ∧
      (st.group_pick gid).2.vplacements = st.vplacements ∧
      (st.group_pick gid).2.vspawns = st.vspawns) ∧
    ((st.facings_pick f).2.vgroups = st.vgroups ∧
      (st.facings_pick f).2.vplacements = st.vplacements ∧
      (st.facings_pick f).2.vspawns = st.vspawns) ∧
    ((st.location_pick_point l).2.vgroups = st.vgroups ∧
      (st.location_pick_point l).2.vplacements = st.vplacements ∧
      (st.location_pick_point l).2.vspawns = st.vspawns) ∧
    ((st.placement_pick pid).2.vgroups = st.vgroups ∧
      (st.placement_pick pid).2.vplacements = st.vplacements ∧
      (st.placement_pick pid).2.vspawns = st.vspawns) ∧
    ((st.spawn_pick sid).2.vgroups = st.vgroups ∧
      (st.spawn_pick sid).2.vplacements = st.vplacements ∧
      (st.spawn_pick sid).2.vspawns = st.vspawns) ∧
    ((st.spawn_apply sid tname).vgroups = st.vgroups ∧
      (st.spawn_apply sid tname).vplacements = st.vplacements ∧
      (st.spawn_apply sid tname).vspawns = st.vspawns) := by
  refine ⟨?_, ?_, ?_, ?_, ?_, ?_⟩
  · cases h : lookupName st.vgroups gid <;> simp [GameState.group_pick, stepSeed, h]
  · simp [GameState.facings_pick, stepSeed]
  · simp [GameState.location_pick_point, stepSeed]
  · cases h : lookupName st.vplacements pid <;> simp [GameState.placement_pick, stepSeed, h]
  · cases h : lookupName st.vspawns sid <;> simp [GameState.spawn_pick, stepSeed, h]
  · cases h : VehicleSpawn.apply_static sid st.vspawns st.vgroups st.vplacements st.seed
        st.m tname <;>
      simp [GameState.spawn_apply, stepSeed, h]
